import Mathlib

/-!
Verification of the Eburon single-page application (src/App.tsx,
src/components/InputArea.tsx, src/components/LivePreview.tsx) against its
natural-language specification.

The TypeScript sources are shallowly embedded: pure string manipulation is
translated to functions over `List Char` / `String`; the asynchronous
handlers become explicit state transformers over an `AppState` record, with
the outcomes of the external model calls (Gemini, the FLUX endpoint, the
speech engine, `crypto.randomUUID`, `Date.now`) supplied through environment
records.  Host builtins used by the code (`JSON.stringify` of a `Date`,
`new Date(string)`) are modelled by an executable ISO-8601 timestamp codec
over epoch milliseconds, matching `Date.prototype.toISOString` /
ES date-time-string parsing on the post-1970, four-digit-year range.
-/

namespace Eburon

/-! ## JavaScript string primitives -/

/-- The character class matched by JavaScript `\s` and removed by
`String.prototype.trim` (ECMA-262 WhiteSpace ∪ LineTerminator). -/
def jsWhitespace (c : Char) : Bool :=
  c = ' ' || c = '\t' || c = '\n' || c = '\r' ||
  c = Char.ofNat 0x0b || c = Char.ofNat 0x0c ||
  c = Char.ofNat 0xa0 || c = Char.ofNat 0x1680 ||
  (0x2000 ≤ c.toNat && c.toNat ≤ 0x200a) ||
  c = Char.ofNat 0x2028 || c = Char.ofNat 0x2029 ||
  c = Char.ofNat 0x202f || c = Char.ofNat 0x205f ||
  c = Char.ofNat 0x3000 || c = Char.ofNat 0xfeff

/-- `String.prototype.trim` on a character list: drop `jsWhitespace`
from both ends. -/
def jsTrimList (l : List Char) : List Char :=
  ((l.dropWhile jsWhitespace).reverse.dropWhile jsWhitespace).reverse

/-- `String.prototype.trim`. -/
def jsTrim (s : String) : String := String.mk (jsTrimList s.toList)

/-- `haystack.includes(needle)`: `needle` occurs contiguously in
`haystack`. -/
def hasSub : List Char → List Char → Bool
  | [], pat => pat.isEmpty
  | l@(_ :: t), pat => pat.isPrefixOf l || hasSub t pat

/-- `String.prototype.includes`. -/
def jsIncludes (s pat : String) : Bool := hasSub s.toList pat.toList

/-! ## JavaScript error values

A thrown JS value as observed by the code: `error?.message || ""`,
`error?.status || ""`, `error?.code || 0` (absent fields default). -/

structure JsError where
  message : String
  status : String
  code : Nat
deriving DecidableEq, Repr

/-- `new Error("KEY_RESET_REQUIRED")` as thrown by the service layer. -/
def keyResetErr : JsError := ⟨"KEY_RESET_REQUIRED", "", 0⟩

/-- services/gemini `isQuotaOrAuthError`: message contains one of the known
quota / not-found substrings, or status is RESOURCE_EXHAUSTED, or code
is 429. -/
def isQuotaOrAuthError (error : JsError) : Bool :=
  jsIncludes error.message "Requested entity was not found" ||
  jsIncludes error.message "quota" ||
  jsIncludes error.message "RESOURCE_EXHAUSTED" ||
  error.status == "RESOURCE_EXHAUSTED" ||
  error.code == 429

/-! ## The host timestamp codec

`JSON.stringify` serializes a `Date` through `Date.prototype.toJSON`,
i.e. `toISOString`, producing `YYYY-MM-DDTHH:mm:ss.sssZ`; `new Date(s)`
parses that format back to epoch milliseconds.  We implement both
directions executably for timestamps in `[1970-01-01, 9999-12-31]`
(`t < 253402300800000`), the exact range the 24-character four-digit-year
format covers, and prove the round trip. -/

/-- Proleptic-Gregorian leap-year test. -/
def isLeap (y : Nat) : Bool := (y % 4 == 0 && y % 100 != 0) || y % 400 == 0

/-- Days in the civil year `y`. -/
def daysInYear (y : Nat) : Nat := if isLeap y then 366 else 365

/-- Number of leap years in `[1..y]`. -/
def leapsBefore (y : Nat) : Nat := y / 4 - y / 100 + y / 400

/-- Days from 1970-01-01 to the start of year `y` (0 for `y ≤ 1970`). -/
def yearDays (y : Nat) : Nat :=
  365 * (y - 1970) + (leapsBefore (y - 1) - 477)

/-- Month lengths for a (non-)leap year. -/
def monthLens (leap : Bool) : List Nat :=
  [31, if leap then 29 else 28, 31, 30, 31, 30, 31, 31, 30, 31, 30, 31]

/-- Locate a day offset inside consecutive years starting at `y`.
Fuel-indexed so the kernel can evaluate it; `fuel ≥ d` always suffices
because each step consumes at least 365 days. -/
def yearSplitFuel : Nat → Nat → Nat → Nat × Nat
  | 0, y, d => (y, d)
  | fuel + 1, y, d =>
      if d < daysInYear y then (y, d)
      else yearSplitFuel fuel (y + 1) (d - daysInYear y)

/-- Year and day-of-year of a day count relative to year `y`. -/
def yearSplit (y d : Nat) : Nat × Nat := yearSplitFuel d y d

/-- Locate a day offset inside consecutive month lengths:
returns (0-based month index, 0-based day of month). -/
def monthSplit : List Nat → Nat → Nat × Nat
  | [], d => (0, d)
  | n :: rest, d =>
      if d < n then (0, d)
      else
        let p := monthSplit rest (d - n)
        (p.1 + 1, p.2)

/-- Civil date (year, month 1-12, day 1-31) of a day count since
1970-01-01. -/
def civilFromDays (days : Nat) : Nat × Nat × Nat :=
  let p := yearSplit 1970 days
  let q := monthSplit (monthLens (isLeap p.1)) p.2
  (p.1, q.1 + 1, q.2 + 1)

/-- Day count since 1970-01-01 of a civil date. -/
def daysFromCivil (y m d : Nat) : Nat :=
  yearDays y + ((monthLens (isLeap y)).take (m - 1)).sum + (d - 1)

/-- Two-digit zero-padded decimal. -/
def pad2 (n : Nat) : List Char := [Nat.digitChar (n / 10), Nat.digitChar (n % 10)]

/-- Three-digit zero-padded decimal. -/
def pad3 (n : Nat) : List Char := Nat.digitChar (n / 100) :: pad2 (n % 100)

/-- Four-digit zero-padded decimal. -/
def pad4 (n : Nat) : List Char := Nat.digitChar (n / 1000) :: pad3 (n % 1000)

/-- `Date.prototype.toISOString` of an epoch-millisecond timestamp, as a
character list: `YYYY-MM-DDTHH:mm:ss.sssZ`. -/
def toISOList (t : Nat) : List Char :=
  let ms := t % 86400000
  let c := civilFromDays (t / 86400000)
  pad4 c.1 ++ '-' :: pad2 c.2.1 ++ '-' :: pad2 c.2.2 ++
  'T' :: pad2 (ms / 3600000) ++ ':' :: pad2 (ms % 3600000 / 60000) ++
  ':' :: pad2 (ms % 60000 / 1000) ++ '.' :: pad3 (ms % 1000) ++ ['Z']

/-- `Date.prototype.toISOString`. -/
def toISOString (t : Nat) : String := String.mk (toISOList t)

/-- Decimal value of a digit character. -/
def digitVal (c : Char) : Nat := c.toNat - 48

/-- `new Date(string)` on a character list: accepts the 24-character
`toISOString` format with a valid calendar date in `[1970, 9999]` and
returns its epoch milliseconds; everything else is an invalid date. -/
def parseISOList : List Char → Option Nat
  | [y1, y2, y3, y4, '-', m1, m2, '-', d1, d2, 'T',
     h1, h2, ':', n1, n2, ':', s1, s2, '.', f1, f2, f3, 'Z'] =>
      let y := digitVal y1 * 1000 + digitVal y2 * 100 + digitVal y3 * 10 + digitVal y4
      let mo := digitVal m1 * 10 + digitVal m2
      let d := digitVal d1 * 10 + digitVal d2
      let hh := digitVal h1 * 10 + digitVal h2
      let mi := digitVal n1 * 10 + digitVal n2
      let ss := digitVal s1 * 10 + digitVal s2
      let ff := digitVal f1 * 100 + digitVal f2 * 10 + digitVal f3
      if y1.isDigit = true ∧ y2.isDigit = true ∧ y3.isDigit = true ∧ y4.isDigit = true ∧
         m1.isDigit = true ∧ m2.isDigit = true ∧ d1.isDigit = true ∧ d2.isDigit = true ∧
         h1.isDigit = true ∧ h2.isDigit = true ∧ n1.isDigit = true ∧ n2.isDigit = true ∧
         s1.isDigit = true ∧ s2.isDigit = true ∧
         f1.isDigit = true ∧ f2.isDigit = true ∧ f3.isDigit = true ∧
         1970 ≤ y ∧ 1 ≤ mo ∧ mo ≤ 12 ∧ 1 ≤ d ∧
         d ≤ (monthLens (isLeap y)).getD (mo - 1) 0 ∧
         hh ≤ 23 ∧ mi ≤ 59 ∧ ss ≤ 59 then
        some (daysFromCivil y mo d * 86400000 +
              hh * 3600000 + mi * 60000 + ss * 1000 + ff)
      else none
  | _ => none

/-- `new Date(string).getTime()`, `none` for an invalid date. -/
def jsParseDate (s : String) : Option Nat := parseISOList s.toList

/-- Largest representable millisecond bound for the four-digit-year ISO
format: `253402300800000` is 10000-01-01T00:00:00Z. -/
def isoMax : Nat := 253402300800000

/-! ### Round trip of the timestamp codec -/

theorem daysInYear_pos (y : Nat) : 0 < daysInYear y := by
  unfold daysInYear; split <;> omega

theorem daysInYear_le (y : Nat) : daysInYear y ≤ 366 := by
  unfold daysInYear; split <;> omega

theorem isLeap_iff (y : Nat) :
    isLeap y = true ↔ ((y % 4 = 0 ∧ y % 100 ≠ 0) ∨ y % 400 = 0) := by
  simp [isLeap, Bool.or_eq_true, Bool.and_eq_true, beq_iff_eq, bne_iff_ne]

set_option maxHeartbeats 1000000 in
theorem yearDays_succ (y : Nat) (h : 1970 ≤ y) :
    yearDays (y + 1) = yearDays y + daysInYear y := by
  unfold yearDays daysInYear
  by_cases hl : isLeap y = true
  · rw [if_pos hl]
    rw [isLeap_iff] at hl
    unfold leapsBefore
    omega
  · rw [if_neg hl]
    rw [isLeap_iff] at hl
    push_neg at hl
    unfold leapsBefore
    omega

theorem yearDays_1970 : yearDays 1970 = 0 := by
  unfold yearDays leapsBefore; omega

theorem yearDays_big (y : Nat) (h : 10000 ≤ y) : 2932897 ≤ yearDays y := by
  unfold yearDays leapsBefore
  omega

theorem yearSplitFuel_spec :
    ∀ fuel y d, 1970 ≤ y → d ≤ fuel →
      yearDays (yearSplitFuel fuel y d).1 + (yearSplitFuel fuel y d).2
          = yearDays y + d ∧
        (yearSplitFuel fuel y d).2 < daysInYear (yearSplitFuel fuel y d).1 ∧
        1970 ≤ (yearSplitFuel fuel y d).1 := by
  intro fuel
  induction fuel with
  | zero =>
      intro y d hy hd
      have hd0 : d = 0 := by omega
      subst hd0
      exact ⟨rfl, daysInYear_pos y, hy⟩
  | succ fuel ih =>
      intro y d hy hd
      simp only [yearSplitFuel]
      by_cases hlt : d < daysInYear y
      · rw [if_pos hlt]
        exact ⟨rfl, hlt, hy⟩
      · rw [if_neg hlt]
        have hpos := daysInYear_pos y
        have hrec := ih (y + 1) (d - daysInYear y) (by omega) (by omega)
        have hstep := yearDays_succ y hy
        omega

theorem yearSplit_spec (d : Nat) :
    yearDays (yearSplit 1970 d).1 + (yearSplit 1970 d).2 = d ∧
      (yearSplit 1970 d).2 < daysInYear (yearSplit 1970 d).1 ∧
      1970 ≤ (yearSplit 1970 d).1 := by
  have h := yearSplitFuel_spec d 1970 d (by omega) (Nat.le_refl d)
  have h0 := yearDays_1970
  unfold yearSplit
  omega

theorem monthSplit_spec :
    ∀ (l : List Nat) (d : Nat),
      (l.take (monthSplit l d).1).sum + (monthSplit l d).2 = d ∧
        (d < l.sum →
          (monthSplit l d).1 < l.length ∧
          (monthSplit l d).2 < l.getD (monthSplit l d).1 0) := by
  intro l
  induction l with
  | nil => intro d; simp [monthSplit]
  | cons n rest ih =>
      intro d
      simp only [monthSplit]
      by_cases hlt : d < n
      · simp only [if_pos hlt]
        simp [List.take, hlt]
      · simp only [if_neg hlt]
        have hrec := ih (d - n)
        constructor
        · simp only [List.take_succ_cons, List.sum_cons]
          omega
        · intro hsum
          have hs : d - n < rest.sum := by
            simp only [List.sum_cons] at hsum; omega
          have := hrec.2 hs
          simp only [List.length_cons, List.getD_cons_succ]
          omega

theorem monthLens_sum (b : Bool) : (monthLens b).sum = if b then 366 else 365 := by
  cases b <;> decide

theorem monthLens_getD_le (b : Bool) (i : Nat) : (monthLens b).getD i 0 ≤ 31 := by
  cases b <;>
    ( rcases i with _|_|_|_|_|_|_|_|_|_|_|_|i <;>
        simp [monthLens, List.getD] )

/-! Digit-level lemmas for the zero-padded fields. -/

theorem digitVal_digitChar (n : Nat) (h : n < 10) :
    digitVal (Nat.digitChar n) = n := by
  have : ∀ m, m < 10 → digitVal (Nat.digitChar m) = m := by decide
  exact this n h

theorem digitChar_isDigit (n : Nat) (h : n < 10) :
    (Nat.digitChar n).isDigit = true := by
  have : ∀ m, m < 10 → (Nat.digitChar m).isDigit = true := by decide
  exact this n h

theorem val2 (n : Nat) (h : n < 100) :
    digitVal (Nat.digitChar (n / 10)) * 10 + digitVal (Nat.digitChar (n % 10)) = n := by
  rw [digitVal_digitChar _ (by omega), digitVal_digitChar _ (by omega)]
  omega

theorem val3 (n : Nat) (h : n < 1000) :
    digitVal (Nat.digitChar (n / 100)) * 100 +
      digitVal (Nat.digitChar (n % 100 / 10)) * 10 +
        digitVal (Nat.digitChar (n % 100 % 10)) = n := by
  rw [digitVal_digitChar _ (by omega), digitVal_digitChar _ (by omega),
    digitVal_digitChar _ (by omega)]
  omega

theorem val4 (n : Nat) (h : n < 10000) :
    digitVal (Nat.digitChar (n / 1000)) * 1000 +
      digitVal (Nat.digitChar (n % 1000 / 100)) * 100 +
        digitVal (Nat.digitChar (n % 1000 % 100 / 10)) * 10 +
          digitVal (Nat.digitChar (n % 1000 % 100 % 10)) = n := by
  rw [digitVal_digitChar _ (by omega), digitVal_digitChar _ (by omega),
    digitVal_digitChar _ (by omega), digitVal_digitChar _ (by omega)]
  omega

/-- Parsing an explicitly padded ISO string recovers its fields. -/
theorem parseISO_explicit (y mo d hh mi ss ff : Nat)
    (hy1 : 1970 ≤ y) (hy2 : y < 10000)
    (hmo1 : 1 ≤ mo) (hmo2 : mo ≤ 12)
    (hd1 : 1 ≤ d) (hd2 : d ≤ (monthLens (isLeap y)).getD (mo - 1) 0)
    (hhh : hh ≤ 23) (hmi : mi ≤ 59) (hss : ss ≤ 59) (hff : ff ≤ 999) :
    parseISOList (pad4 y ++ '-' :: pad2 mo ++ '-' :: pad2 d ++
        'T' :: pad2 hh ++ ':' :: pad2 mi ++ ':' :: pad2 ss ++
        '.' :: pad3 ff ++ ['Z'])
      = some (daysFromCivil y mo d * 86400000 +
              hh * 3600000 + mi * 60000 + ss * 1000 + ff) := by
  have hmo100 : mo < 100 := by omega
  have hd100 : d < 100 := by
    have := monthLens_getD_le (isLeap y) (mo - 1)
    omega
  simp only [pad4, pad3, pad2, List.cons_append, List.nil_append]
  simp only [parseISOList]
  rw [if_pos]
  · rw [val4 y hy2, val2 mo (by omega), val2 d (by omega), val2 hh (by omega),
      val2 mi (by omega), val2 ss (by omega), val3 ff (by omega)]
  · refine ⟨digitChar_isDigit _ (by omega), digitChar_isDigit _ (by omega),
      digitChar_isDigit _ (by omega), digitChar_isDigit _ (by omega),
      digitChar_isDigit _ (by omega), digitChar_isDigit _ (by omega),
      digitChar_isDigit _ (by omega), digitChar_isDigit _ (by omega),
      digitChar_isDigit _ (by omega), digitChar_isDigit _ (by omega),
      digitChar_isDigit _ (by omega), digitChar_isDigit _ (by omega),
      digitChar_isDigit _ (by omega), digitChar_isDigit _ (by omega),
      digitChar_isDigit _ (by omega), digitChar_isDigit _ (by omega),
      digitChar_isDigit _ (by omega), ?_, ?_, ?_, ?_, ?_, ?_, ?_, ?_⟩ <;>
    simp only [val4 y hy2, val2 mo (by omega : mo < 100), val2 d (by omega : d < 100),
      val2 hh (by omega : hh < 100), val2 mi (by omega : mi < 100),
      val2 ss (by omega : ss < 100)] <;>
    omega

theorem monthLens_length (b : Bool) : (monthLens b).length = 12 := by
  cases b <;> rfl

theorem monthLens_sum_daysInYear (y : Nat) :
    (monthLens (isLeap y)).sum = daysInYear y := by
  rw [monthLens_sum]; unfold daysInYear; rfl

set_option maxRecDepth 8192 in
/-- Host contract: re-parsing a serialized timestamp recovers it, for every
timestamp the four-digit-year ISO format covers. -/
theorem jsParseDate_toISOString (t : Nat) (ht : t < isoMax) :
    jsParseDate (toISOString t) = some t := by
  have hstep : jsParseDate (toISOString t) = parseISOList (toISOList t) := rfl
  rw [hstep]
  obtain ⟨hsum, hdoy, hge⟩ := yearSplit_spec (t / 86400000)
  obtain ⟨hmsum, hmlt⟩ :=
    monthSplit_spec (monthLens (isLeap (yearSplit 1970 (t / 86400000)).1))
      (yearSplit 1970 (t / 86400000)).2
  set y := (yearSplit 1970 (t / 86400000)).1 with hy
  set doy := (yearSplit 1970 (t / 86400000)).2 with hdoy2
  set mi := (monthSplit (monthLens (isLeap y)) doy).1 with hmi
  set di := (monthSplit (monthLens (isLeap y)) doy).2 with hdi
  have hdays : t / 86400000 ≤ 2932896 := by unfold isoMax at ht; omega
  have hylt : y < 10000 := by
    by_contra hc
    push_neg at hc
    have := yearDays_big y hc
    omega
  have hmsb : doy < (monthLens (isLeap y)).sum := by
    rw [monthLens_sum_daysInYear]; omega
  obtain ⟨hm12, hdibound⟩ := hmlt hmsb
  rw [monthLens_length] at hm12
  have hms : t % 86400000 < 86400000 := by omega
  have key := parseISO_explicit y (mi + 1) (di + 1)
    (t % 86400000 / 3600000) (t % 86400000 % 3600000 / 60000)
    (t % 86400000 % 60000 / 1000) (t % 86400000 % 1000)
    hge hylt (by omega) (by omega) (by omega)
    (by simpa using hdibound)
    (by omega) (by omega) (by omega) (by omega)
  have hform : toISOList t =
      pad4 y ++ '-' :: pad2 (mi + 1) ++ '-' :: pad2 (di + 1) ++
        'T' :: pad2 (t % 86400000 / 3600000) ++
        ':' :: pad2 (t % 86400000 % 3600000 / 60000) ++
        ':' :: pad2 (t % 86400000 % 60000 / 1000) ++
        '.' :: pad3 (t % 86400000 % 1000) ++ ['Z'] := by
    simp only [toISOList, civilFromDays, hy, hdoy2, hmi, hdi]
  have hdfc : daysFromCivil y (mi + 1) (di + 1) =
      yearDays y + ((monthLens (isLeap y)).take mi).sum + di := by
    unfold daysFromCivil
    simp
  have hval : daysFromCivil y (mi + 1) (di + 1) * 86400000 +
      t % 86400000 / 3600000 * 3600000 +
      t % 86400000 % 3600000 / 60000 * 60000 +
      t % 86400000 % 60000 / 1000 * 1000 +
      t % 86400000 % 1000 = t := by
    rw [hdfc]
    omega
  exact ((congrArg parseISOList hform).trans key).trans (congrArg some hval)

/-! ## Data model (components/CreationHistory, services/gemini) -/

/-- services/gemini `IdentificationResult`. -/
structure IdentificationResult where
  label : String
  confidence : Float
  description : String
  type : String

/-- components/CreationHistory `Creation`.  A JS `Date` is its epoch-ms
time value; `none` models an Invalid Date (`NaN` time value). -/
structure Creation where
  id : String
  name : String
  html : String
  originalImage : Option String
  timestamp : Option Nat
  identifications : Option (List IdentificationResult)

/-- The root orchestrator's state (App.tsx `useState` hooks).
`hasApiKey = none` models the initial `null`. -/
structure AppState where
  activeCreation : Option Creation
  isGenerating : Bool
  history : List Creation
  hasApiKey : Option Bool
  identifications : List IdentificationResult

/-! ## String helpers used by the handlers -/

/-- `s.slice(0, n)`. -/
def takeChars (s : String) (n : Nat) : String := String.mk (s.toList.take n)

/-- `s.toLowerCase()`. -/
def jsToLower (s : String) : String := String.mk (s.toList.map Char.toLower)

/-! ## services/gemini: code-fence stripping (`bringToLife` postprocessing)

`text.replace(/^```html\s*/i, '').replace(/^```\s*/, '').replace(/```$/, '')`
followed by `.trim()`.  Each `replace` removes only the first match; the
trailing-fence pattern is anchored at the very end of the string and runs
BEFORE the trim. -/

/-- `replace(/^```html\s*/i, '')`: a leading fence followed by
case-insensitive `html` and any whitespace run. -/
def stripLeadingHtmlFence (l : List Char) : List Char :=
  if ("```".toList).isPrefixOf l ∧
      ((l.drop 3).take 4).map Char.toLower = "html".toList then
    (l.drop 7).dropWhile jsWhitespace
  else l

/-- `replace(/^```\s*/, '')`. -/
def stripLeadingFence (l : List Char) : List Char :=
  if ("```".toList).isPrefixOf l then (l.drop 3).dropWhile jsWhitespace
  else l

/-- `replace(/```$/, '')`: only when the string ends exactly with the
fence, with nothing (not even whitespace) after it. -/
def stripTrailingFence (l : List Char) : List Char :=
  if ("```".toList).isSuffixOf l then l.take (l.length - 3)
  else l

/-- The full postprocessing pipeline applied to the raw model text in
`bringToLife`. -/
def bringToLifeStrip (s : String) : String :=
  String.mk (jsTrimList (stripTrailingFence (stripLeadingFence
    (stripLeadingHtmlFence s.toList))))

/-! ## services/gemini: the three service calls

Each call's remote interaction is supplied as an environment value: the
`await`ed response (or the thrown JS error) of the hosted model. -/

/-- services/gemini `identifyImage`: the `try` block's outcome
(`generateContent` + `JSON.parse`) is `api`.  On a thrown error the catch
classifies it: quota/auth errors raise `KEY_RESET_REQUIRED`; everything
else fails soft with `[]`. -/
def identifyImage (api : Except JsError (List IdentificationResult)) :
    Except JsError (List IdentificationResult) :=
  match api with
  | .ok results => .ok results
  | .error e => if isQuotaOrAuthError e then .error keyResetErr else .ok []

/-- The arguments App.tsx passes to `bringToLife`. -/
structure BTLArgs where
  prompt : String
  image : Option String
  mime : Option String
  context : Option String

/-- services/gemini `bringToLife` prompt assembly: canned analysis prompt
for an image input, the user prompt (or a default) otherwise, plus the
supplemental vision data when a detection context is present. -/
def finalPromptOf (args : BTLArgs) : String :=
  (match args.image with
   | some _ =>
      "Exhaustively analyze this visual input. Identify all interactive components, data states, and navigation patterns. Build a sophisticated, single-page application that brings this concept to life with high interactivity and polished aesthetics."
   | none =>
      if args.prompt ≠ "" then args.prompt
      else "Create a state-of-the-art interactive experience.") ++
  (match args.context with
   | some c => "\n\nSUPPLEMENTAL VISION DATA (Eburon-YOLO26 Engine Results):\n" ++ c
   | none => "")

/-- services/gemini `bringToLife` result handling: `response.text` (empty
or absent falls back to a comment placeholder), fences stripped and
trimmed; thrown errors are classified like `identifyImage` but non-auth
errors are rethrown. -/
def bringToLife (api : Except JsError (Option String)) : Except JsError String :=
  match api with
  | .ok text =>
      .ok (bringToLifeStrip
        (match text with
         | some t => if t ≠ "" then t else "<!-- Failed to generate content -->"
         | none => "<!-- Failed to generate content -->"))
  | .error e => if isQuotaOrAuthError e then .error keyResetErr else .error e

/-! ## services/gemini: image generation (FLUX primary + Gemini fallback) -/

def timeoutErr : JsError := ⟨"FLUX generation timed out", "", 0⟩

def fluxDataErr : JsError := ⟨"FLUX generation failed to return image data", "", 0⟩

def noImageErr : JsError := ⟨"No image data returned from Gemini Pro Image", "", 0⟩

/-- The initial POST: `ok` status and the parsed `event_id`. -/
structure PostResp where
  ok : Bool
  event_id : String

/-- An element of `data.output.data` in a Gradio completion message:
either a plain string or an object with an optional `url` field. -/
inductive FluxResult where
  | str (s : String)
  | obj (url : Option String)

/-- The parsed payload of one SSE message. -/
structure SseData where
  msg : String
  success : Bool
  output : Option (List FluxResult)

/-- One event delivered on the SSE stream before the 60-second timeout:
a message or an `onerror` firing. -/
inductive SseEvent where
  | message (d : SseData)
  | errored (e : JsError)

/-- JS truthiness of `data.output.data[0]`. -/
def truthyRes : FluxResult → Bool
  | .str s => s != ""
  | .obj _ => true

/-- The resolve logic inside the `process_completed` branch:
`if (typeof result === 'string') resolve(result); if (result.url)
resolve(result.url);` then a fallthrough `reject`. -/
def resolveRes : FluxResult → Except JsError String
  | .str s => .ok s
  | .obj (some u) => if u ≠ "" then .ok u else .error fluxDataErr
  | .obj none => .error fluxDataErr

/-- `onmessage` handling of a `process_completed` message. -/
def completedResult (d : SseData) : Except JsError String :=
  match d.output with
  | some (r :: _) => if d.success && truthyRes r then resolveRes r else .error fluxDataErr
  | _ => .error fluxDataErr

/-- How the promise in `generateFluxImage` settles: the first settling
event wins (a `process_completed` message or an error); if no event
settles it within the window, the 60-second timeout rejects. -/
def sseSettle : List SseEvent → Except JsError String
  | [] => .error timeoutErr
  | .errored e :: _ => .error e
  | .message d :: rest =>
      if d.msg = "process_completed" then completedResult d else sseSettle rest

/-- Environment for `generateAIImage`: the `generateContent` outcome,
`some base64` when an `inlineData` part was found in the first candidate,
`none` when none was. -/
structure AIEnv where
  raw : Except JsError (Option String)

/-- services/gemini `generateAIImage` (the fallback generator): wraps the
returned bytes as a data URL; throws `noImageErr` when no image part came
back; the catch classifies quota/auth errors into `KEY_RESET_REQUIRED`
and rethrows the rest.  The `noImageErr` throw happens inside the `try`,
so it passes through the same catch. -/
def generateAIImage (env : AIEnv) : Except JsError String :=
  match env.raw with
  | .ok (some b) => .ok ("data:image/png;base64," ++ b)
  | .ok none => if isQuotaOrAuthError noImageErr then .error keyResetErr else .error noImageErr
  | .error e => if isQuotaOrAuthError e then .error keyResetErr else .error e

/-- Environment for `generateFluxImage`: POST outcome, SSE events, and the
fallback generator's environment. -/
structure FluxEnv where
  post : Except JsError PostResp
  events : List SseEvent
  ai : AIEnv

/-- services/gemini `generateFluxImage`.  Returns the settled value and
whether the fallback `generateAIImage` was invoked.

Faithful to the JS control flow: the `try` block ends with
`return new Promise(...)` WITHOUT `await`, so the returned promise's
rejections (stream error, 60-second timeout, missing image data) do NOT
pass through the `catch` — only failures of the submission phase (fetch
rejection, `!postResponse.ok`, JSON parse) reach the catch and trigger
the fallback. -/
def generateFluxImage (env : FluxEnv) : Except JsError String × Bool :=
  match env.post with
  | .error _ => (generateAIImage env.ai, true)
  | .ok p =>
      if p.ok then (sseSettle env.events, false)
      else (generateAIImage env.ai, true)

/-! ## App.tsx handlers -/

/-- App.tsx `handleError`: the `KEY_RESET_REQUIRED` signal gates the app
(`hasApiKey := false`); any other error is alerted; both clear the
generation flag. -/
def handleError (error : JsError) (s : AppState) : AppState :=
  if error.message = "KEY_RESET_REQUIRED" then
    { s with hasApiKey := some false, isGenerating := false }
  else
    { s with isGenerating := false }

/-- The attached file as the handlers see it (name, MIME type, and the
base64 payload produced by `fileToBase64`). -/
structure FileIn where
  name : String
  type : String
  base64 : String

/-- Environment for one `handleGenerate` run: the submitted prompt/file
and the outcomes of the two service calls, plus `crypto.randomUUID()` and
`new Date()`. -/
structure GenEnv where
  prompt : String
  file : Option FileIn
  identifyApi : Except JsError (List IdentificationResult)
  btlApi : Except JsError (Option String)
  newId : String
  now : Nat

/-- App.tsx detection-context formatting:
`- ${d.label} (${d.type}): ${d.description}` joined by newlines, only
when at least one detection exists. -/
def fmtDetection (d : IdentificationResult) : String :=
  "- " ++ d.label ++ " (" ++ d.type ++ "): " ++ d.description

def detectionContextOf (detections : List IdentificationResult) : Option String :=
  if detections.length > 0 then
    some (String.intercalate "\n" (detections.map fmtDetection))
  else none

/-- The observable effects of one `handleGenerate` /
`handleGenerateImage` run: the final state, the Creation constructed on
success (the argument of `setActiveCreation`/`setHistory`), and the
arguments of the `bringToLife` call when it was reached. -/
structure GenTrace where
  state : AppState
  created : Option Creation
  btlCall : Option BTLArgs

/-- App.tsx `handleGenerate`.  Mirrors the source: set the generating
flag, clear the active creation and identifications; if a file is
attached run `identifyImage` and store its detections; call `bringToLife`
with the detection context; if the returned html is truthy build the
Creation, activate it, prepend it to history and clear the flag (an empty
html string skips that whole block); thrown errors go to `handleError`. -/
def handleGenerate (env : GenEnv) (s : AppState) : GenTrace :=
  let s1 := { s with isGenerating := true, activeCreation := none,
                     identifications := [] }
  let imageBase64 : Option String := env.file.map FileIn.base64
  let mimeType : Option String := env.file.map (fun f => jsToLower f.type)
  match (match env.file with
         | some _ => identifyImage env.identifyApi
         | none => .ok []) with
  | .error e => ⟨handleError e s1, none, none⟩
  | .ok detections =>
      let s2 := { s1 with identifications := detections }
      let call : BTLArgs := ⟨env.prompt, imageBase64, mimeType,
                             detectionContextOf detections⟩
      match bringToLife env.btlApi with
      | .error e => ⟨handleError e s2, none, some call⟩
      | .ok html =>
          if html ≠ "" then
            let c : Creation :=
              ⟨env.newId,
               (match env.file with
                | some f => f.name
                | none => if env.prompt ≠ "" then takeChars env.prompt 30
                          else "New Creation"),
               html,
               (match imageBase64, mimeType with
                | some i, some m =>
                    if i ≠ "" ∧ m ≠ "" then some ("data:" ++ m ++ ";base64," ++ i)
                    else none
                | _, _ => none),
               some env.now,
               if detections.length > 0 then some detections else none⟩
            ⟨{ s2 with activeCreation := some c, history := c :: s2.history,
                       isGenerating := false }, some c, some call⟩
          else ⟨s2, none, some call⟩

/-- The HTML template `handleGenerateImage` wraps a generated image in. -/
def fluxWrapHtml (imageDataUrl prompt : String) : String :=
  "<!DOCTYPE html><html><head><script src=\"https://cdn.tailwindcss.com\"></script></head><body class=\"bg-zinc-950 flex flex-col items-center justify-center min-h-screen p-8 text-white font-sans\"><div class=\"max-w-2xl w-full bg-zinc-900 rounded-3xl overflow-hidden shadow-2xl border border-zinc-800 animate-in fade-in zoom-in-95 duration-1000\"><img src=\"" ++
  imageDataUrl ++
  "\" class=\"w-full aspect-square object-cover\" /><div class=\"p-8 text-center\"><h1 class=\"text-2xl font-bold mb-4\">Eburon-FLUX Engine</h1><p class=\"text-zinc-400 mb-6 font-light italic\">\"" ++
  prompt ++
  "\"</p><button onclick=\"window.print()\" class=\"bg-white text-black px-8 py-3 rounded-full font-bold hover:bg-zinc-200 transition-all hover:scale-105 active:scale-95 shadow-lg\">Download Artifact</button></div></div></body></html>"

/-- Environment for one `handleGenerateImage` run. -/
structure ImageGenEnv where
  prompt : String
  flux : FluxEnv
  newId : String
  now : Nat

/-- App.tsx `handleGenerateImage`: run `generateFluxImage`, wrap the
image URL in the template page, build the Creation, activate and prepend
it; errors go to `handleError`.  (It never calls `bringToLife` and never
touches `identifications`.) -/
def handleGenerateImage (env : ImageGenEnv) (s : AppState) : GenTrace :=
  let s1 := { s with isGenerating := true, activeCreation := none }
  match (generateFluxImage env.flux).1 with
  | .error e => ⟨handleError e s1, none, none⟩
  | .ok imageDataUrl =>
      let c : Creation :=
        ⟨env.newId,
         "FLUX: " ++ takeChars env.prompt 20 ++ "...",
         fluxWrapHtml imageDataUrl env.prompt,
         some imageDataUrl,
         some env.now,
         none⟩
      ⟨{ s1 with activeCreation := some c, history := c :: s1.history,
                 isGenerating := false }, some c, none⟩

/-! ## Persistence, import and export

The persist effect runs `JSON.stringify(history)`: a `Date` serializes
through `toISOString`, so the stored value is the same record with the
timestamp as a string (an Invalid Date serializes as JSON `null`, modelled
`none`).  `initHistory` runs `JSON.parse` then
`parsed.map(item => ({...item, timestamp: new Date(item.timestamp)}))`. -/

/-- A Creation as it sits in the browser-storage JSON / an exported
file. -/
structure StoredCreation where
  id : String
  name : String
  html : String
  originalImage : Option String
  timestamp : Option String
  identifications : Option (List IdentificationResult)

/-- One record of `JSON.stringify(history)` (and of
LivePreview `handleExport`, which writes `JSON.stringify(creation)` to
the downloaded file). -/
def storeCreation (c : Creation) : StoredCreation :=
  ⟨c.id, c.name, c.html, c.originalImage, c.timestamp.map toISOString,
   c.identifications⟩

/-- `initHistory`'s per-item rehydration:
`{...item, timestamp: new Date(item.timestamp)}`.  A stored ISO string is
parsed; a stored JSON `null` (the serialization of an Invalid Date) gives
`new Date(null)`, which is epoch 0 (`ToNumber(null) = +0`), NOT an
Invalid Date — so an Invalid-Date record does not keep its timestamp
across a reload. -/
def rehydrateCreation (st : StoredCreation) : Creation :=
  ⟨st.id, st.name, st.html, st.originalImage,
   (match st.timestamp with
    | some s => jsParseDate s
    | none => some 0),
   st.identifications⟩

/-- The persist effect's serialization of the whole history list. -/
def storeHistory (h : List Creation) : List StoredCreation := h.map storeCreation

/-- `initHistory`'s reload of a stored history list. -/
def loadHistory (l : List StoredCreation) : List Creation := l.map rehydrateCreation

/-- App.tsx import `onChange`: rebuild the record from the parsed file,
re-hydrating the timestamp (`new Date(parsed.timestamp || Date.now())`)
and defaulting a falsy identifier to a fresh UUID
(`parsed.id || crypto.randomUUID()`). -/
def importCreation (parsed : StoredCreation) (now : Nat) (freshId : String) : Creation :=
  ⟨(if parsed.id ≠ "" then parsed.id else freshId),
   parsed.name, parsed.html, parsed.originalImage,
   (match parsed.timestamp with
    | some s => if s ≠ "" then jsParseDate s else some now
    | none => some now),
   parsed.identifications⟩

/-- App.tsx import `onChange` history update:
`setHistory(prev => prev.some(c => c.id === imported.id) ? prev
: [imported, ...prev])`. -/
def importIntoHistory (imported : Creation) (prev : List Creation) : List Creation :=
  if prev.any (fun c => c.id == imported.id) then prev
  else imported :: prev

/-! ## components/InputArea -/

/-- The input component's submission-relevant state: the committed text,
the interim transcript, the `finalTranscriptRef` buffer, and the attached
file. -/
structure InputState where
  text : String
  interimText : String
  finalTranscript : String
  file : Option FileIn

/-- `(text + (interimText ? ' ' + interimText : '')).trim()`. -/
def combinedTextOf (s : InputState) : String :=
  jsTrim (s.text ++ (if s.interimText ≠ "" then " " ++ s.interimText else ""))

/-- InputArea `handleSubmit`: when the combined text is non-empty or a
file is attached, and no generation is in flight and the component is not
disabled, invoke `onGenerate(combinedText, file || undefined)` and clear
all four pieces of input state; otherwise do nothing.  The second
component of the result is the invocation (its arguments), `none` when
`onGenerate` was not called. -/
def handleSubmit (isGenerating disabled : Bool) (s : InputState) :
    InputState × Option (String × Option FileIn) :=
  let combinedText := combinedTextOf s
  if (combinedText ≠ "" ∨ s.file.isSome) ∧ isGenerating = false ∧ disabled = false then
    (⟨"", "", "", none⟩, some (combinedText, s.file))
  else
    (s, none)

/-! # Claims -/

theorem isQuotaOrAuthError_iff (e : JsError) :
    isQuotaOrAuthError e = true ↔
      (jsIncludes e.message "Requested entity was not found" = true ∨
       jsIncludes e.message "quota" = true ∨
       jsIncludes e.message "RESOURCE_EXHAUSTED" = true ∨
       e.status = "RESOURCE_EXHAUSTED" ∨ e.code = 429) := by
  simp [isQuotaOrAuthError, Bool.or_eq_true, beq_iff_eq, or_assoc]

/-- C4: when the underlying request of `identifyImage` fails with an
error classified as quota/auth (message contains one of the known
substrings, status is RESOURCE_EXHAUSTED, or code is 429), the call
raises the distinct `KEY_RESET_REQUIRED` condition; on every other
failure it fails soft and returns the empty list. -/
theorem C4_identifyImage_failure_classification (e : JsError) :
    ((jsIncludes e.message "Requested entity was not found" = true ∨
      jsIncludes e.message "quota" = true ∨
      jsIncludes e.message "RESOURCE_EXHAUSTED" = true ∨
      e.status = "RESOURCE_EXHAUSTED" ∨ e.code = 429) →
        identifyImage (.error e) = .error keyResetErr) ∧
    (¬ (jsIncludes e.message "Requested entity was not found" = true ∨
        jsIncludes e.message "quota" = true ∨
        jsIncludes e.message "RESOURCE_EXHAUSTED" = true ∨
        e.status = "RESOURCE_EXHAUSTED" ∨ e.code = 429) →
          identifyImage (.error e) = .ok []) := by
  constructor
  · intro h
    have hb : isQuotaOrAuthError e = true := (isQuotaOrAuthError_iff e).mpr h
    simp [identifyImage, hb]
  · intro h
    have hb : isQuotaOrAuthError e = false := by
      rcases hq : isQuotaOrAuthError e with _ | _
      · rfl
      · exact absurd ((isQuotaOrAuthError_iff e).mp hq) h
    simp [identifyImage, hb]

/-- Witness for C4: a 429 quota error raises the key-reset signal; a
plain network error fails soft with the empty list. -/
theorem C4_witness :
    identifyImage (.error ⟨"You exceeded your quota.", "", 429⟩) = .error keyResetErr ∧
    identifyImage (.error ⟨"network unreachable", "", 0⟩) = .ok [] :=
  ⟨(C4_identifyImage_failure_classification ⟨"You exceeded your quota.", "", 429⟩).1
      (Or.inr (Or.inl (by decide))),
   (C4_identifyImage_failure_classification ⟨"network unreachable", "", 0⟩).2
      (by decide)⟩

/-- C1 (code behavior at the failing inputs): when the FLUX job
submission succeeds but the event stream never completes (timeout) or
fires an error, `generateFluxImage` rejects with that error and the
fallback `generateAIImage` is NOT invoked — the `return new Promise`
inside the `try` is not awaited, so these rejections bypass the `catch`.
Only a submission failure triggers the fallback (third conjunct). -/
theorem C1_flux_no_fallback_on_stream_failure :
    generateFluxImage ⟨.ok ⟨true, "evt1"⟩, [], ⟨.ok (some "AAAA")⟩⟩
        = (.error timeoutErr, false) ∧
    generateFluxImage
        ⟨.ok ⟨true, "evt1"⟩, [.errored ⟨"stream error", "", 0⟩], ⟨.ok (some "AAAA")⟩⟩
        = (.error ⟨"stream error", "", 0⟩, false) ∧
    generateFluxImage ⟨.error ⟨"network failure", "", 0⟩, [], ⟨.ok (some "AAAA")⟩⟩
        = (.ok "data:image/png;base64,AAAA", true) :=
  ⟨rfl, rfl, rfl⟩

/-- C10: submit invokes the generation callback and clears all input
state exactly when the combined trimmed text is non-empty or a file is
attached, and no generation is in flight and the component is not
disabled; in every other case it is a no-op leaving the state
unchanged. -/
theorem C10_handleSubmit_iff (isGenerating disabled : Bool) (s : InputState) :
    (((combinedTextOf s ≠ "" ∨ s.file.isSome = true) ∧
        isGenerating = false ∧ disabled = false) →
      handleSubmit isGenerating disabled s
        = (⟨"", "", "", none⟩, some (combinedTextOf s, s.file))) ∧
    (¬ ((combinedTextOf s ≠ "" ∨ s.file.isSome = true) ∧
        isGenerating = false ∧ disabled = false) →
      handleSubmit isGenerating disabled s = (s, none)) := by
  constructor
  · intro h
    unfold handleSubmit
    rw [if_pos]
    exact h
  · intro h
    unfold handleSubmit
    rw [if_neg]
    exact h

/-- Witness for C10: a non-empty prompt with the app idle submits and
clears the state; an empty input is a no-op. -/
theorem C10_witness :
    handleSubmit false false ⟨"hello", "", "", none⟩
        = (⟨"", "", "", none⟩, some ("hello", none)) ∧
    handleSubmit false false ⟨"", "", "", none⟩ = (⟨"", "", "", none⟩, none) := by
  constructor
  · have h := (C10_handleSubmit_iff false false ⟨"hello", "", "", none⟩).1
      ⟨Or.inl (by decide), rfl, rfl⟩
    rw [h]
    have : combinedTextOf ⟨"hello", "", "", none⟩ = "hello" := by decide
    rw [this]
  · exact (C10_handleSubmit_iff false false ⟨"", "", "", none⟩).2
      (by intro h; rcases h with ⟨h1 | h2, _, _⟩
          · exact h1 (by decide)
          · exact absurd h2 (by decide))

/-- C2: every successful generation (handleGenerate or
handleGenerateImage) constructs a Creation, sets it as the active
artifact and prepends it to the front of the history list. -/
theorem C2_success_prepends_and_activates :
    (∀ (env : GenEnv) (s : AppState) (c : Creation),
      (handleGenerate env s).created = some c →
        (handleGenerate env s).state.activeCreation = some c ∧
        (handleGenerate env s).state.history = c :: s.history) ∧
    (∀ (env : ImageGenEnv) (s : AppState) (c : Creation),
      (handleGenerateImage env s).created = some c →
        (handleGenerateImage env s).state.activeCreation = some c ∧
        (handleGenerateImage env s).state.history = c :: s.history) := by
  constructor
  · intro env s c
    unfold handleGenerate
    dsimp only
    split
    · intro h; exact absurd h (by simp)
    · split
      · intro h; exact absurd h (by simp)
      · split
        · intro h
          dsimp only at h ⊢
          injection h with h
          subst h
          exact ⟨rfl, rfl⟩
        · intro h; exact absurd h (by simp)
  · intro env s c
    unfold handleGenerateImage
    dsimp only
    split
    · intro h; exact absurd h (by simp)
    · intro h
      dsimp only at h ⊢
      injection h with h
      subst h
      exact ⟨rfl, rfl⟩

/-- Witness for C2: a concrete successful text generation activates and
prepends its Creation, and a concrete successful image generation does
too. -/
theorem C2_witness :
    ((handleGenerate ⟨"draw a clock", none, .ok [], .ok (some "<p>ok</p>"), "uuid1", 5⟩
        ⟨none, false, [], none, []⟩).state.activeCreation
      = some ⟨"uuid1", "draw a clock", "<p>ok</p>", none, some 5, none⟩ ∧
     (handleGenerate ⟨"draw a clock", none, .ok [], .ok (some "<p>ok</p>"), "uuid1", 5⟩
        ⟨none, false, [], none, []⟩).state.history
      = [⟨"uuid1", "draw a clock", "<p>ok</p>", none, some 5, none⟩]) ∧
    ((handleGenerateImage
        ⟨"sunset", ⟨.error ⟨"boom", "", 0⟩, [], ⟨.ok (some "XYZ")⟩⟩, "uuid2", 6⟩
        ⟨none, false, [], none, []⟩).state.activeCreation
      = some ⟨"uuid2", "FLUX: sunset...",
          fluxWrapHtml "data:image/png;base64,XYZ" "sunset",
          some "data:image/png;base64,XYZ", some 6, none⟩ ∧
     (handleGenerateImage
        ⟨"sunset", ⟨.error ⟨"boom", "", 0⟩, [], ⟨.ok (some "XYZ")⟩⟩, "uuid2", 6⟩
        ⟨none, false, [], none, []⟩).state.history
      = [⟨"uuid2", "FLUX: sunset...",
          fluxWrapHtml "data:image/png;base64,XYZ" "sunset",
          some "data:image/png;base64,XYZ", some 6, none⟩]) :=
  ⟨C2_success_prepends_and_activates.1
      ⟨"draw a clock", none, .ok [], .ok (some "<p>ok</p>"), "uuid1", 5⟩
      ⟨none, false, [], none, []⟩
      ⟨"uuid1", "draw a clock", "<p>ok</p>", none, some 5, none⟩ rfl,
   C2_success_prepends_and_activates.2
      ⟨"sunset", ⟨.error ⟨"boom", "", 0⟩, [], ⟨.ok (some "XYZ")⟩⟩, "uuid2", 6⟩
      ⟨none, false, [], none, []⟩
      ⟨"uuid2", "FLUX: sunset...",
        fluxWrapHtml "data:image/png;base64,XYZ" "sunset",
        some "data:image/png;base64,XYZ", some 6, none⟩ rfl⟩

/-- C3: an error classified as quota/auth raised by `identifyImage`,
`bringToLife`, or `generateAIImage` switches the application into the
gated "upgrade required" view (`hasApiKey = false`) and clears the
generation flag. -/
theorem C3_quota_auth_gates (e : JsError) (he : isQuotaOrAuthError e = true)
    (s : AppState) :
    (∀ env : GenEnv, env.file.isSome = true → env.identifyApi = .error e →
      (handleGenerate env s).state.hasApiKey = some false ∧
      (handleGenerate env s).state.isGenerating = false) ∧
    (∀ (env : GenEnv) (l : List IdentificationResult),
      env.identifyApi = .ok l → env.btlApi = .error e →
      (handleGenerate env s).state.hasApiKey = some false ∧
      (handleGenerate env s).state.isGenerating = false) ∧
    (∀ (env : ImageGenEnv) (pe : JsError), env.flux.post = .error pe →
      env.flux.ai.raw = .error e →
      (handleGenerateImage env s).state.hasApiKey = some false ∧
      (handleGenerateImage env s).state.isGenerating = false) := by
  refine ⟨?_, ?_, ?_⟩
  · intro env hf hid
    match henv : env.file, hf with
    | some f, _ =>
      simp [handleGenerate, henv, hid, identifyImage, he, handleError, keyResetErr]
  · intro env l hid hbtl
    cases henv : env.file <;>
      simp [handleGenerate, henv, hid, hbtl, identifyImage, bringToLife, he,
        handleError, keyResetErr]
  · intro env pe hpost hraw
    simp [handleGenerateImage, generateFluxImage, generateAIImage, hpost, hraw,
      he, handleError, keyResetErr]

/-- Witness for C3: a quota-message error raised by each of the three
operations gates the app. -/
theorem C3_witness :
    ((handleGenerate ⟨"p", some ⟨"a.png", "image/png", "QUJD"⟩,
        .error ⟨"quota exceeded", "", 0⟩, .ok (some "<p/>"), "u1", 0⟩
        ⟨none, false, [], none, []⟩).state.hasApiKey = some false ∧
     (handleGenerate ⟨"p", some ⟨"a.png", "image/png", "QUJD"⟩,
        .error ⟨"quota exceeded", "", 0⟩, .ok (some "<p/>"), "u1", 0⟩
        ⟨none, false, [], none, []⟩).state.isGenerating = false) ∧
    ((handleGenerate ⟨"p", none, .ok [], .error ⟨"quota exceeded", "", 0⟩, "u1", 0⟩
        ⟨none, false, [], none, []⟩).state.hasApiKey = some false ∧
     (handleGenerate ⟨"p", none, .ok [], .error ⟨"quota exceeded", "", 0⟩, "u1", 0⟩
        ⟨none, false, [], none, []⟩).state.isGenerating = false) ∧
    ((handleGenerateImage ⟨"p", ⟨.error ⟨"post failed", "", 0⟩, [],
        ⟨.error ⟨"quota exceeded", "", 0⟩⟩⟩, "u2", 0⟩
        ⟨none, false, [], none, []⟩).state.hasApiKey = some false ∧
     (handleGenerateImage ⟨"p", ⟨.error ⟨"post failed", "", 0⟩, [],
        ⟨.error ⟨"quota exceeded", "", 0⟩⟩⟩, "u2", 0⟩
        ⟨none, false, [], none, []⟩).state.isGenerating = false) :=
  ⟨(C3_quota_auth_gates ⟨"quota exceeded", "", 0⟩ (by decide)
      ⟨none, false, [], none, []⟩).1
      ⟨"p", some ⟨"a.png", "image/png", "QUJD"⟩,
        .error ⟨"quota exceeded", "", 0⟩, .ok (some "<p/>"), "u1", 0⟩ rfl rfl,
   (C3_quota_auth_gates ⟨"quota exceeded", "", 0⟩ (by decide)
      ⟨none, false, [], none, []⟩).2.1
      ⟨"p", none, .ok [], .error ⟨"quota exceeded", "", 0⟩, "u1", 0⟩ [] rfl rfl,
   (C3_quota_auth_gates ⟨"quota exceeded", "", 0⟩ (by decide)
      ⟨none, false, [], none, []⟩).2.2
      ⟨"p", ⟨.error ⟨"post failed", "", 0⟩, [],
        ⟨.error ⟨"quota exceeded", "", 0⟩⟩⟩, "u2", 0⟩
      ⟨"post failed", "", 0⟩ rfl rfl⟩

/-- C5: with an image attached and the identification call failing with a
non-auth error, generation proceeds: `bringToLife` is called with no
detection context, and any resulting Creation has no identification
list. -/
theorem C5_identify_softfail_still_generates (env : GenEnv) (s : AppState)
    (f : FileIn) (e : JsError)
    (hf : env.file = some f) (hid : env.identifyApi = .error e)
    (he : isQuotaOrAuthError e = false) :
    (∃ call, (handleGenerate env s).btlCall = some call ∧ call.context = none) ∧
    (∀ c, (handleGenerate env s).created = some c → c.identifications = none) := by
  unfold handleGenerate
  rw [hf, hid]
  have hsoft : identifyImage (.error e) = .ok [] := by
    simp [identifyImage, he]
  rw [hsoft]
  dsimp only
  split
  · exact ⟨⟨_, rfl, rfl⟩, by intro c h; exact absurd h (by simp)⟩
  · split
    · refine ⟨⟨_, rfl, rfl⟩, ?_⟩
      intro c h
      dsimp only at h
      injection h with h
      subst h
      rfl
    · exact ⟨⟨_, rfl, rfl⟩, by intro c h; exact absurd h (by simp)⟩

/-- Witness for C5: a concrete failing (non-auth) identification still
produces a Creation without identifications, from a bringToLife call with
no context. -/
theorem C5_witness :
    (∃ call, (handleGenerate ⟨"p", some ⟨"a.png", "image/png", "QUJD"⟩,
        .error ⟨"parse error", "", 0⟩, .ok (some "<p>x</p>"), "u3", 9⟩
        ⟨none, false, [], none, []⟩).btlCall = some call ∧ call.context = none) ∧
    (∀ c, (handleGenerate ⟨"p", some ⟨"a.png", "image/png", "QUJD"⟩,
        .error ⟨"parse error", "", 0⟩, .ok (some "<p>x</p>"), "u3", 9⟩
        ⟨none, false, [], none, []⟩).created = some c → c.identifications = none) :=
  C5_identify_softfail_still_generates
    ⟨"p", some ⟨"a.png", "image/png", "QUJD"⟩,
      .error ⟨"parse error", "", 0⟩, .ok (some "<p>x</p>"), "u3", 9⟩
    ⟨none, false, [], none, []⟩ ⟨"a.png", "image/png", "QUJD"⟩
    ⟨"parse error", "", 0⟩ rfl rfl (by decide)

/-- C9 (amended): `handleGenerate` leaves the generation flag set exactly
when `bringToLife` succeeds with the EMPTY string (the `if (html)` guard
skips the block that clears it); every error path and every non-empty
success clears it, and `handleGenerateImage` always clears it. -/
theorem C9_generation_flag (env : GenEnv) (s : AppState) :
    ((handleGenerate env s).state.isGenerating = true ↔
      ((handleGenerate env s).btlCall.isSome = true ∧
        bringToLife env.btlApi = .ok "")) ∧
    (∀ env2 : ImageGenEnv, (handleGenerateImage env2 s).state.isGenerating = false) := by
  constructor
  · unfold handleGenerate
    dsimp only
    split
    · simp [handleError]
      split <;> simp
    · split
      · next e heq =>
        rw [heq]
        simp [handleError]
        split <;> simp
      · next html heq =>
        rw [heq]
        split
        · next hh => simp [hh]
        · next hh =>
          simp at hh
          simp [hh]
  · intro env2
    unfold handleGenerateImage
    dsimp only
    split
    · simp [handleError]
      split <;> simp
    · simp

/-- Witness for C9 (amended): an errored generation clears the flag, and
handleGenerateImage clears it on success. -/
theorem C9_witness :
    (handleGenerate ⟨"p", none, .ok [], .error ⟨"boom", "", 0⟩, "u4", 0⟩
        ⟨none, false, [], none, []⟩).state.isGenerating = false ∧
    (handleGenerateImage ⟨"p", ⟨.ok ⟨true, "e"⟩, [], ⟨.ok none⟩⟩, "u5", 0⟩
        ⟨none, false, [], none, []⟩).state.isGenerating = false := by
  constructor
  · have h := (C9_generation_flag
      ⟨"p", none, .ok [], .error ⟨"boom", "", 0⟩, "u4", 0⟩
      ⟨none, false, [], none, []⟩).1
    rcases hg : (handleGenerate ⟨"p", none, .ok [], .error ⟨"boom", "", 0⟩, "u4", 0⟩
        ⟨none, false, [], none, []⟩).state.isGenerating with _ | _
    · rfl
    · rw [hg] at h
      have h2 := (h.mp rfl).2
      have hq : isQuotaOrAuthError ⟨"boom", "", 0⟩ = false := by decide
      simp [bringToLife, hq] at h2
  · exact (C9_generation_flag ⟨"p", none, .ok [], .ok none, "u0", 0⟩
      ⟨none, false, [], none, []⟩).2
      ⟨"p", ⟨.ok ⟨true, "e"⟩, [], ⟨.ok none⟩⟩, "u5", 0⟩

/-- Counterexample to C9 as stated: when the model call succeeds with an
empty HTML string, `handleGenerate` completes without clearing
`isGenerating` — the flag stays `true` (raw output three backticks strips
to the empty string, and `if (html)` skips the clearing block). -/
theorem C9_counterexample :
    (handleGenerate ⟨"p", none, .ok [], .ok (some "```"), "u6", 0⟩
        ⟨none, false, [], none, []⟩).state.isGenerating = true := by decide

/-- Persisting and re-hydrating a single Creation is the identity when
its timestamp is a valid date in the ISO-representable range (an
Invalid-Date record comes back as epoch 0 instead). -/
theorem rehydrate_store (c : Creation) (t : Nat)
    (hct : c.timestamp = some t) (hlt : t < isoMax) :
    rehydrateCreation (storeCreation c) = c := by
  obtain ⟨cid, cname, chtml, coi, cts, cidents⟩ := c
  dsimp only at hct
  subst hct
  have hrt := jsParseDate_toISOString t hlt
  simp [storeCreation, rehydrateCreation, hrt]

theorem loadHistory_storeHistory (h : List Creation)
    (hts : ∀ c ∈ h, ∃ t, c.timestamp = some t ∧ t < isoMax) :
    loadHistory (storeHistory h) = h := by
  induction h with
  | nil => rfl
  | cons c rest ih =>
      obtain ⟨t, hct, hlt⟩ := hts c (by simp)
      simp only [storeHistory, loadHistory, List.map_cons] at *
      rw [rehydrate_store c t hct hlt]
      rw [ih (fun x hx => hts x (by simp [hx]))]

/-- C6 (amended): serializing a non-empty history whose records all hold
VALID timestamps (in the four-digit-year ISO range — every `new Date()`
the app itself stores is one) and re-loading it yields the same list:
same length, same order, and every record keeps its identifier and its
timestamp.  An Invalid-Date record (reachable only through import of a
malformed file) does not keep its timestamp: it serializes as JSON
`null` and reloads as epoch 0 (see the counterexample). -/
theorem C6_history_roundtrip (h : List Creation) (_hne : h ≠ [])
    (hts : ∀ c ∈ h, ∃ t, c.timestamp = some t ∧ t < isoMax) :
    loadHistory (storeHistory h) = h :=
  loadHistory_storeHistory h hts

/-- Witness for C6 (amended): a concrete singleton history with a 2023
timestamp survives the round trip. -/
theorem C6_witness :
    ([⟨"a1", "First", "<p>x</p>", none, some 1700000000123, none⟩] :
        List Creation) ≠ [] ∧
    loadHistory (storeHistory
        [⟨"a1", "First", "<p>x</p>", none, some 1700000000123, none⟩])
      = [⟨"a1", "First", "<p>x</p>", none, some 1700000000123, none⟩] := by
  have hts : ∀ c ∈ ([⟨"a1", "First", "<p>x</p>", none, some 1700000000123, none⟩] :
      List Creation), ∃ t, c.timestamp = some t ∧ t < isoMax := by
    intro c hc
    rw [List.mem_singleton] at hc
    subst hc
    exact ⟨1700000000123, rfl, by decide⟩
  exact ⟨by simp,
    C6_history_roundtrip
      [⟨"a1", "First", "<p>x</p>", none, some 1700000000123, none⟩]
      (by simp) hts⟩

/-- Counterexample to C6 as stated: a history holding an Invalid-Date
record (timestamp `none`, as import of a malformed file produces) does
NOT round-trip — the record's timestamp serializes as JSON `null` and
reloads as `new Date(null)` = epoch 0, so it is not kept. -/
theorem C6_counterexample :
    loadHistory (storeHistory [⟨"inv1", "Imported", "<p/>", none, none, none⟩])
      = [⟨"inv1", "Imported", "<p/>", none, some 0, none⟩] ∧
    loadHistory (storeHistory [⟨"inv1", "Imported", "<p/>", none, none, none⟩])
      ≠ [⟨"inv1", "Imported", "<p/>", none, none, none⟩] := by
  constructor
  · rfl
  · intro h
    have h2 := congrArg (List.map Creation.timestamp) h
    simp [loadHistory, storeHistory, rehydrateCreation, storeCreation] at h2

/-- `toISOString` never yields the empty string (it always has 24
characters), so the imported timestamp string is truthy. -/
theorem toISOString_ne_empty (t : Nat) : toISOString t ≠ "" := by
  unfold toISOString
  intro h
  have h2 : toISOList t = [] := by
    simpa using congrArg String.data h
  unfold toISOList pad4 at h2
  simp at h2

/-- C7: importing a Creation file whose identifier already occurs in the
history leaves the history unchanged; otherwise the imported record is
prepended.  Exported and imported records are interchangeable: importing
an exported Creation (application records always have a non-empty UUID
and an in-range timestamp) recovers it exactly. -/
theorem C7_import_dedup_and_roundtrip :
    (∀ (p : StoredCreation) (now : Nat) (fid : String) (prev : List Creation),
      p.id ≠ "" →
      (p.id ∈ prev.map Creation.id →
        importIntoHistory (importCreation p now fid) prev = prev) ∧
      (p.id ∉ prev.map Creation.id →
        importIntoHistory (importCreation p now fid) prev
          = importCreation p now fid :: prev)) ∧
    (∀ (c : Creation) (now : Nat) (fid : String) (t : Nat),
      c.id ≠ "" → c.timestamp = some t → t < isoMax →
      importCreation (storeCreation c) now fid = c) := by
  constructor
  · intro p now fid prev hpne
    have hid : (importCreation p now fid).id = p.id := by
      simp [importCreation, hpne]
    constructor
    · intro hmem
      unfold importIntoHistory
      rw [if_pos]
      rw [List.any_eq_true]
      obtain ⟨a, ha, haid⟩ := List.mem_map.mp hmem
      exact ⟨a, ha, by rw [hid, beq_iff_eq, haid]⟩
    · intro hnmem
      unfold importIntoHistory
      rw [if_neg]
      intro hany
      rw [List.any_eq_true] at hany
      obtain ⟨x, hx, hbeq⟩ := hany
      rw [hid, beq_iff_eq] at hbeq
      exact hnmem (List.mem_map.mpr ⟨x, hx, hbeq⟩)
  · intro c now fid t hcne hct htlt
    obtain ⟨cid, cname, chtml, coi, cts, cidents⟩ := c
    dsimp only at hct
    subst hct
    have hne := toISOString_ne_empty t
    have hrt := jsParseDate_toISOString t htlt
    simp [storeCreation, importCreation, hne, hrt, hcne]

/-- Witness for C7: importing a file with an already-present identifier
leaves a concrete history unchanged; a fresh identifier is prepended; a
concrete exported record imports back to itself. -/
theorem C7_witness :
    importIntoHistory
        (importCreation ⟨"idA", "x", "<q/>", none, none, none⟩ 1 "fresh")
        [⟨"idA", "n", "<p/>", none, some 5, none⟩]
      = [⟨"idA", "n", "<p/>", none, some 5, none⟩] ∧
    importIntoHistory
        (importCreation ⟨"idB", "x", "<q/>", none, none, none⟩ 1 "fresh")
        [⟨"idA", "n", "<p/>", none, some 5, none⟩]
      = importCreation ⟨"idB", "x", "<q/>", none, none, none⟩ 1 "fresh"
          :: [⟨"idA", "n", "<p/>", none, some 5, none⟩] ∧
    importCreation
        (storeCreation ⟨"idC", "Name", "<p/>", none, some 1700000000123, none⟩)
        2 "g"
      = ⟨"idC", "Name", "<p/>", none, some 1700000000123, none⟩ :=
  ⟨((C7_import_dedup_and_roundtrip.1 ⟨"idA", "x", "<q/>", none, none, none⟩ 1 "fresh"
      [⟨"idA", "n", "<p/>", none, some 5, none⟩] (by decide)).1
      (by simp)),
   ((C7_import_dedup_and_roundtrip.1 ⟨"idB", "x", "<q/>", none, none, none⟩ 1 "fresh"
      [⟨"idA", "n", "<p/>", none, some 5, none⟩] (by decide)).2
      (by simp)),
   C7_import_dedup_and_roundtrip.2
      ⟨"idC", "Name", "<p/>", none, some 1700000000123, none⟩ 2 "g"
      1700000000123 (by decide) rfl (by decide)⟩

/-- A three-character pattern that is not a prefix of `l` is still not a
prefix after appending a newline-led tail, as long as none of its
characters is the newline. -/
theorem isPrefixOf3_append (p1 p2 p3 : Char)
    (hp1 : (p1 == '\n') = false) (hp2 : (p2 == '\n') = false)
    (hp3 : (p3 == '\n') = false) (l r : List Char)
    (h : ([p1, p2, p3]).isPrefixOf l = false) :
    ([p1, p2, p3]).isPrefixOf (l ++ '\n' :: r) = false := by
  match l with
  | [] => simp [List.isPrefixOf, hp1]
  | [a] => simp [List.isPrefixOf, hp2]
  | [a, b] => simp [List.isPrefixOf, hp3]
  | a :: b :: c :: l' =>
      simp [List.isPrefixOf] at h ⊢
      exact h

/-- C8 (amended): the fence stripping removes the markers only when they
sit exactly at the raw output's boundaries: for a raw output of the form
` ```html⏎body⏎``` ` — opening fence at position 0, closing fence as the
very last characters — the returned string is the trimmed body, free of
fence markers at either end (provided the body itself does not start or
end with one).  A closing fence followed by whitespace is NOT stripped
(see the counterexample). -/
theorem C8_fence_stripping (body : String)
    (h1 : ("```".toList).isPrefixOf (body.toList.dropWhile jsWhitespace) = false)
    (h2 : ("```".toList).isPrefixOf (jsTrim body).toList = false)
    (h3 : ("```".toList).isSuffixOf (jsTrim body).toList = false) :
    bringToLifeStrip ("```html\n" ++ body ++ "\n```") = jsTrim body ∧
    ("```".toList).isPrefixOf
        (bringToLifeStrip ("```html\n" ++ body ++ "\n```")).toList = false ∧
    ("```".toList).isSuffixOf
        (bringToLifeStrip ("```html\n" ++ body ++ "\n```")).toList = false := by
  have happ : ∀ (a b : String), (a ++ b).toList = a.toList ++ b.toList :=
    fun _ _ => rfl
  have hbt : ("```".toList) = [Char.ofNat 96, Char.ofNat 96, Char.ofNat 96] := rfl
  have hnl : ("\n```".toList) = '\n' :: "```".toList := rfl
  have main : bringToLifeStrip ("```html\n" ++ body ++ "\n```") = jsTrim body := by
    unfold bringToLifeStrip jsTrim
    refine congrArg String.mk ?_
    rw [happ, happ, List.append_assoc]
    have hstrip1 :
        stripLeadingHtmlFence ("```html\n".toList ++ (body.toList ++ "\n```".toList))
          = (body.toList ++ "\n```".toList).dropWhile jsWhitespace := by
      unfold stripLeadingHtmlFence
      rw [if_pos]
      · rfl
      · exact ⟨rfl, rfl⟩
    rw [hstrip1, List.dropWhile_append]
    by_cases hb : (body.toList.dropWhile jsWhitespace).isEmpty = true
    · -- the body is all whitespace: everything strips away to the empty string
      rw [if_pos hb]
      have hbnil : body.toList.dropWhile jsWhitespace = [] := by
        simpa using hb
      have : ("\n```".toList).dropWhile jsWhitespace = "```".toList := rfl
      rw [this]
      have hlf : stripLeadingFence ("```".toList) = [] := rfl
      rw [hlf]
      have htf : stripTrailingFence ([] : List Char) = [] := rfl
      rw [htf]
      unfold jsTrimList
      rw [hbnil]
      rfl
    · -- the body has visible content
      rw [if_neg hb]
      have hbne : (body.toList.dropWhile jsWhitespace).isEmpty = false := by
        simpa using hb
      have hnp : ("```".toList).isPrefixOf
          (body.toList.dropWhile jsWhitespace ++ "\n```".toList) = false := by
        rw [hbt, hnl, hbt]
        exact isPrefixOf3_append _ _ _ (by decide) (by decide) (by decide)
          _ _ (by rw [← hbt]; exact h1)
      have hlf : stripLeadingFence
          (body.toList.dropWhile jsWhitespace ++ "\n```".toList)
            = body.toList.dropWhile jsWhitespace ++ "\n```".toList := by
        unfold stripLeadingFence
        rw [if_neg]
        rw [hnp]
        simp
      rw [hlf]
      have hassoc : body.toList.dropWhile jsWhitespace ++ "\n```".toList
          = (body.toList.dropWhile jsWhitespace ++ ['\n']) ++ "```".toList := by
        rw [hnl]
        simp
      have htf : stripTrailingFence
          (body.toList.dropWhile jsWhitespace ++ "\n```".toList)
            = body.toList.dropWhile jsWhitespace ++ ['\n'] := by
        unfold stripTrailingFence
        rw [hassoc, if_pos]
        · have hlen : ((body.toList.dropWhile jsWhitespace ++ ['\n'])
              ++ "```".toList).length - 3
              = (body.toList.dropWhile jsWhitespace ++ ['\n']).length := by
            simp
          rw [hlen, List.take_left]
        · exact List.isSuffixOf_iff_suffix.mpr (List.suffix_append _ _)
      rw [htf]
      unfold jsTrimList
      have hd : (body.toList.dropWhile jsWhitespace ++ ['\n']).dropWhile jsWhitespace
          = body.toList.dropWhile jsWhitespace ++ ['\n'] := by
        rw [List.dropWhile_append, List.dropWhile_idempotent]
        rw [if_neg]
        rw [hbne]
        simp
      rw [hd]
      have hrev : (body.toList.dropWhile jsWhitespace ++ ['\n']).reverse
          = '\n' :: (body.toList.dropWhile jsWhitespace).reverse := by
        simp
      rw [hrev]
      have hdnl : ∀ x : List Char,
          List.dropWhile jsWhitespace ('\n' :: x) = List.dropWhile jsWhitespace x :=
        fun _ => rfl
      rw [hdnl]
  exact ⟨main, by rw [main]; exact h2, by rw [main]; exact h3⟩

/-- Witness for C8 (amended): a concrete exactly-wrapped raw output
strips to the fence-free trimmed body. -/
theorem C8_witness :
    bringToLifeStrip ("```html\n" ++ "<p>hi</p>" ++ "\n```") = jsTrim "<p>hi</p>" ∧
    ("```".toList).isPrefixOf
        (bringToLifeStrip ("```html\n" ++ "<p>hi</p>" ++ "\n```")).toList = false ∧
    ("```".toList).isSuffixOf
        (bringToLifeStrip ("```html\n" ++ "<p>hi</p>" ++ "\n```")).toList = false :=
  C8_fence_stripping "<p>hi</p>" (by decide) (by decide) (by decide)

/-- Counterexample to C8 as stated: a trailing fence followed by a
newline — `raw = "```html\n<p>hi</p>\n```\n"` — is NOT stripped: the
`/```$/` replacement runs before `.trim()`, misses the fence because of
the final newline, and the returned string still ends with it. -/
theorem C8_counterexample :
    bringToLifeStrip "```html\n<p>hi</p>\n```\n" = "<p>hi</p>\n```" ∧
    ("```".toList).isSuffixOf
        (bringToLifeStrip "```html\n<p>hi</p>\n```\n").toList = true := by
  constructor <;> decide

end Eburon
